import Mathlib

/-!
Verification development for the drum-transcription frontend progress layer.
Definitions are shallow embeddings of the TypeScript source:
  - src/frontend/src/types/index.ts        (wire types and their field names)
  - src/frontend/src/hooks/useTranscription.ts  (polling, cache deletion)
  - the useWebSocket hook                  (push connection state machine)
  - the ProcessingStatus component          (merge of push and poll updates)
The Job Ledger is not present in the repository sources, so it is modelled
from the specification where a claim needs it.
-/

namespace DrumScript

/-- Enum JobStatus from src/frontend/src/types/index.ts lines 1-7. -/
inductive JobStatus
  | pending
  | uploading
  | validating
  | processing
  | completed
  | error
deriving DecidableEq

/-- Enum ProcessingStage from src/frontend/src/types/index.ts lines 9-17. -/
inductive ProcessingStage
  | uploading
  | validating
  | preprocessing
  | source_separation
  | transcribing
  | post_processing
  | generating_exports
  | completed
deriving DecidableEq

/-- Interface TranscriptionResult (types/index.ts lines 32-37): tempo,
timeSignature, durationSeconds, accuracyScore. Numeric fields are embedded
as Int; no claim computes with their values. -/
structure TranscriptionResult where
  tempo : Int
  timeSignature : String
  durationSeconds : Int
  accuracyScore : Int
deriving DecidableEq

/-- Interface TranscriptionJob (types/index.ts lines 19-30). -/
structure TranscriptionJob where
  id : String
  filename : String
  status : JobStatus
  progress : Int
  stage : Option ProcessingStage
  errorMessage : Option String
  createdAt : String
  startedAt : Option String
  completedAt : Option String
  result : Option TranscriptionResult
deriving DecidableEq

/-- Interface JobStatusResponse (types/index.ts lines 45-55): the pull-mode
status snapshot returned by getJobStatus. -/
structure JobStatusResponse where
  id : String
  filename : String
  status : JobStatus
  progress : Int
  stage : Option ProcessingStage
  errorMessage : Option String
  createdAt : String
  startedAt : Option String
  completedAt : Option String
deriving DecidableEq

/-- Interface ProgressUpdate (types/index.ts lines 68-74): the declared shape
of a server-to-client push message. jobId, status, progress and stage are
required fields; message is optional. -/
structure ProgressUpdate where
  jobId : String
  status : JobStatus
  progress : Int
  stage : ProcessingStage
  message : Option String
deriving DecidableEq

/-- Field names declared on interface JobResultResponse
(types/index.ts lines 57-66), in declaration order. -/
def jobResultResponseFields : List String :=
  ["job_id", "status", "result", "download_urls"]

/-- Keys of the download_urls object inside JobResultResponse
(types/index.ts lines 61-65). -/
def jobResultDownloadUrlKeys : List String :=
  ["musicxml", "midi", "pdf"]

/-- Field names declared on interface TranscriptionResult
(types/index.ts lines 32-37). -/
def transcriptionResultFields : List String :=
  ["tempo", "timeSignature", "durationSeconds", "accuracyScore"]

/-- Field names declared on interface ProgressUpdate
(types/index.ts lines 68-74). -/
def progressUpdateFields : List String :=
  ["jobId", "status", "progress", "stage", "message"]

/-- Result-query field names as the specification words them: an object
of the shape with fields status, result, downloadUrls. -/
def specClaimedResultFields : List String :=
  ["status", "result", "downloadUrls"]

/-- Inner result field names as the specification words them. -/
def specClaimedInnerResultFields : List String :=
  ["tempo", "timeSignature", "durationSeconds", "accuracyScore"]

/-- Push message field names as the specification words them:
status, progress, stage and optionally message. -/
def specClaimedPushFields : List String :=
  ["status", "progress", "stage", "message"]

/-- Push-update merge from the ProcessingStatus component: the useWebSocket
callback overwrites status, progress and stage of the local job with the
values of the incoming ProgressUpdate, keeping the remaining fields
(onJobUpdate with a spread of the current job). -/
def applyPush (j : TranscriptionJob) (u : ProgressUpdate) : TranscriptionJob :=
  { j with status := u.status, progress := u.progress, stage := some u.stage }

/-- Poll-response merge from the ProcessingStatus component: the useEffect on
jobStatus rebuilds the local job entirely from the poll snapshot
(onJobUpdate with every field taken from jobStatus; no result field is set). -/
def applyPoll (_j : TranscriptionJob) (s : JobStatusResponse) : TranscriptionJob :=
  { id := s.id, filename := s.filename, status := s.status,
    progress := s.progress, stage := s.stage, errorMessage := s.errorMessage,
    createdAt := s.createdAt, startedAt := s.startedAt,
    completedAt := s.completedAt, result := none }

/-- One observation reaching the Client Progress Client: either a push event
from the WebSocket or a poll response from the status endpoint. -/
inductive Obs
  | push (u : ProgressUpdate)
  | poll (s : JobStatusResponse)
deriving DecidableEq

/-- Apply one observation to the local job state, exactly as the
ProcessingStatus component does. -/
def applyObs (j : TranscriptionJob) : Obs → TranscriptionJob
  | .push u => applyPush j u
  | .poll s => applyPoll j s

/-- Apply a whole interleaving of observations in order. -/
def applyObsList (j : TranscriptionJob) (os : List Obs) : TranscriptionJob :=
  os.foldl applyObs j

/-- Reconnect backoff of the useWebSocket hook: setTimeout(connect, 2000)
inside the onclose handler. -/
def reconnectDelayMs : Nat := 2000

/-- Keepalive period of the useWebSocket hook: setInterval(sendPing, 30000)
while isConnected. -/
def pingIntervalMs : Nat := 30000

/-- Poll period of useJobStatus: refetchInterval returns 1000 while the job
is non-terminal. -/
def pollIntervalMs : Nat := 1000

/-- State of the useWebSocket hook: the two useState values (isConnected,
lastUpdate), the socket ref (hasSocket, socketOpen for readyState OPEN), the
pending reconnect timeout ref, the jobId argument, plus two traces recording
the observable behaviour: every payload sent to the server and every update
delivered to the onProgressUpdate callback. -/
structure WSClient where
  jobId : Option String
  isConnected : Bool
  lastUpdate : Option ProgressUpdate
  hasSocket : Bool
  socketOpen : Bool
  reconnectDelay : Option Nat
  sent : List String
  delivered : List ProgressUpdate
deriving DecidableEq

/-- Hook state right after mounting useWebSocket(jobId): useState(false),
useState(null), null refs, nothing sent or delivered. -/
def initClient (j : Option String) : WSClient :=
  { jobId := j, isConnected := false, lastUpdate := none, hasSocket := false,
    socketOpen := false, reconnectDelay := none, sent := [], delivered := [] }

/-- The connect function of useWebSocket: returns at once when jobId is null,
otherwise creates a fresh WebSocket (not yet open). -/
def connect (c : WSClient) : WSClient :=
  match c.jobId with
  | none => c
  | some _ => { c with hasSocket := true, socketOpen := false }

/-- Events driving the useWebSocket hook: the socket callbacks (onopen,
onmessage with the outcome of JSON.parse, onclose, onerror), the reconnect
timeout firing, the 30-second keepalive tick calling sendPing, and the
cleanup call to disconnect. -/
inductive WSEvent
  | sockOpen
  | sockMessage (parsed : Option ProgressUpdate)
  | sockClose
  | sockError
  | reconnectFire
  | pingTick
  | unmount
deriving DecidableEq

/-- One step of the useWebSocket hook, translated handler by handler:
onopen sets isConnected; onmessage records the update and invokes the
callback only when JSON.parse succeeded; onclose clears isConnected and
schedules a single reconnect after reconnectDelayMs; onerror only logs;
a firing reconnect timeout calls connect; the keepalive tick sends the
string ping when the interval is active (isConnected) and the socket is
OPEN; disconnect clears the timeout, closes and drops the socket. -/
def stepWS (c : WSClient) : WSEvent → WSClient
  | .sockOpen => { c with isConnected := true, socketOpen := true }
  | .sockMessage parsed =>
      match parsed with
      | some u => { c with lastUpdate := some u, delivered := c.delivered ++ [u] }
      | none => c
  | .sockClose =>
      { c with isConnected := false, socketOpen := false,
               reconnectDelay := some reconnectDelayMs }
  | .sockError => c
  | .reconnectFire =>
      match c.reconnectDelay with
      | some _ => connect { c with reconnectDelay := none }
      | none => c
  | .pingTick =>
      if c.isConnected && c.socketOpen then { c with sent := c.sent ++ ["ping"] }
      else c
  | .unmount =>
      { c with reconnectDelay := none, hasSocket := false, socketOpen := false,
               isConnected := false }

/-- Run the hook over a list of events. -/
def runWS (c : WSClient) (es : List WSEvent) : WSClient :=
  es.foldl stepWS c

/-- Terminal check used by useJobStatus refetchInterval:
status === completed or status === error. -/
def isTerminalStatus (s : JobStatus) : Bool :=
  s = JobStatus.completed ∨ s = JobStatus.error

/-- The refetchInterval callback of useJobStatus
(src/frontend/src/hooks/useTranscription.ts lines 24-31): with no data yet
it returns 1000; on terminal status it returns false (none, stop polling);
otherwise it returns 1000. Its only input is the last polled snapshot, so
its value does not depend on the push connection. -/
def refetchInterval : Option JobStatusResponse → Option Nat
  | none => some pollIntervalMs
  | some d => if isTerminalStatus d.status then none else some pollIntervalMs

/-- The react-query cache, embedded as an association list from full query
keys (a pair of kind string and job id, mirroring the two-element array
keys such as job and job-result) to cached entries. -/
def Cache (α : Type) : Type := List ((String × String) × α)

/-- Cache lookup by full query key (getQueryData). -/
def cacheLookup {α : Type} (cache : Cache α) (k : String × String) : Option α :=
  match cache with
  | [] => none
  | e :: rest => if e.1 = k then some e.2 else cacheLookup rest k

/-- queryClient.removeQueries with an exact query key: drops every entry
whose key equals k and keeps every other entry. -/
def removeQueries {α : Type} (cache : Cache α) (k : String × String) : Cache α :=
  match cache with
  | [] => []
  | e :: rest =>
      if e.1 = k then removeQueries rest k else e :: removeQueries rest k

/-- The onSuccess handler of useDeleteJob
(src/frontend/src/hooks/useTranscription.ts lines 48-51): removes the
queries keyed by job with the deleted id and by job-result with the
deleted id, and nothing else. -/
def onDeleteSuccess {α : Type} (cache : Cache α) (jobId : String) : Cache α :=
  removeQueries (removeQueries cache ("job", jobId)) ("job-result", jobId)

/-- Modelled from the spec: the Job Ledger is absent from the repository
sources (only the frontend is present), so its status order is taken from
the specification: pending, uploading, validating, processing, then the
terminal statuses completed and error; a transition may never move the
status backward in this order. -/
def statusRank : JobStatus → Nat
  | .pending => 0
  | .uploading => 1
  | .validating => 2
  | .processing => 3
  | .completed => 4
  | .error => 4

/-- Modelled from the spec: a Job Ledger row with the attributes the
specification lists for a job. -/
structure LedgerJob where
  id : String
  filename : String
  sizeBytes : Nat
  status : JobStatus
  stage : Option ProcessingStage
  progress : Nat
  errorMessage : Option String
deriving DecidableEq

/-- Modelled from the spec: the error taxonomy of the Job Ledger
operations. -/
inductive LedgerError
  | InvalidTransition
  | NotFound
deriving DecidableEq

/-- Modelled from the spec: transition(job_id, new_status, new_stage?,
progress, message?) on a single row fails with InvalidTransition if the job
is already terminal or if new_status would move status backward; otherwise
it writes the new status, stage and progress. -/
def transition (j : LedgerJob) (newStatus : JobStatus)
    (newStage : Option ProcessingStage) (newProgress : Nat)
    (message : Option String) : Except LedgerError LedgerJob :=
  if isTerminalStatus j.status then .error .InvalidTransition
  else if statusRank newStatus < statusRank j.status then .error .InvalidTransition
  else .ok { j with status := newStatus, stage := newStage,
                    progress := newProgress,
                    errorMessage := if newStatus = .error then message else j.errorMessage }

/-- Modelled from the spec: the Job Ledger as a map from job id to row. -/
def Ledger : Type := List (String × LedgerJob)

/-- Modelled from the spec: get(job_id) fails with NotFound if unknown. -/
def ledgerGet (L : Ledger) (jobId : String) : Except LedgerError LedgerJob :=
  match L with
  | [] => .error .NotFound
  | e :: rest => if e.1 = jobId then .ok e.2 else ledgerGet rest jobId

/-- Modelled from the spec: replace the row of jobId in the ledger. -/
def ledgerPut (L : Ledger) (jobId : String) (j : LedgerJob) : Ledger :=
  match L with
  | [] => []
  | e :: rest =>
      if e.1 = jobId then (jobId, j) :: rest else e :: ledgerPut rest jobId j

/-- Modelled from the spec: transition on the ledger; returns the updated
ledger, or the error and an unchanged ledger. -/
def ledgerTransition (L : Ledger) (jobId : String) (newStatus : JobStatus)
    (newStage : Option ProcessingStage) (newProgress : Nat)
    (message : Option String) : Except LedgerError Ledger :=
  match ledgerGet L jobId with
  | .error e => .error e
  | .ok j =>
      match transition j newStatus newStage newProgress message with
      | .error e => .error e
      | .ok j2 => .ok (ledgerPut L jobId j2)

/-- Concrete local job used in concrete evaluations: a job mid-processing. -/
def j0 : TranscriptionJob :=
  { id := "J1", filename := "song.mp3", status := JobStatus.processing,
    progress := 30, stage := some ProcessingStage.transcribing,
    errorMessage := none, createdAt := "2024-01-01T00:00:00Z",
    startedAt := some "2024-01-01T00:00:01Z", completedAt := none,
    result := none }

/-- Concrete terminal push message: the job finished with progress 100. -/
def pushDone : ProgressUpdate :=
  { jobId := "J1", status := JobStatus.completed, progress := 100,
    stage := ProcessingStage.completed, message := none }

/-- Concrete stale poll snapshot: still processing at progress 40. -/
def poll40 : JobStatusResponse :=
  { id := "J1", filename := "song.mp3", status := JobStatus.processing,
    progress := 40, stage := some ProcessingStage.transcribing,
    errorMessage := none, createdAt := "2024-01-01T00:00:00Z",
    startedAt := some "2024-01-01T00:00:01Z", completedAt := none }

/-- Concrete terminal poll snapshot: the job completed. -/
def demoDoneSnap : JobStatusResponse :=
  { id := "J1", filename := "song.mp3", status := JobStatus.completed,
    progress := 100, stage := some ProcessingStage.completed,
    errorMessage := none, createdAt := "2024-01-01T00:00:00Z",
    startedAt := some "2024-01-01T00:00:01Z",
    completedAt := some "2024-01-01T00:01:00Z" }

/-- Concrete completed ledger row. -/
def doneJob : LedgerJob :=
  { id := "J1", filename := "song.mp3", sizeBytes := 1024,
    status := JobStatus.completed, stage := some ProcessingStage.completed,
    progress := 100, errorMessage := none }

/-- Concrete one-row ledger holding the completed job. -/
def demoLedger : Ledger := [("J1", doneJob)]

/-- Concrete query cache holding status and result entries for two jobs. -/
def demoCache : Cache Nat :=
  [(("job", "J1"), 1), (("job-result", "J1"), 2),
   (("job", "K1"), 3), (("job-result", "K1"), 4)]

/-! Helper lemmas shared by the claim theorems below. -/

/-- Running the hook over an appended event list splits into two runs. -/
theorem runWS_append (c : WSClient) (l1 l2 : List WSEvent) :
    runWS c (l1 ++ l2) = runWS (runWS c l1) l2 := by
  simp [runWS, List.foldl_append]

/-- One hook step only ever appends the string ping to the sent trace. -/
theorem stepWS_sent (c : WSClient) (e : WSEvent) (m : String)
    (hm : m ∈ (stepWS c e).sent) : m ∈ c.sent ∨ m = "ping" := by
  cases e with
  | sockOpen => exact Or.inl hm
  | sockMessage parsed =>
      cases parsed with
      | some u => exact Or.inl hm
      | none => exact Or.inl hm
  | sockClose => exact Or.inl hm
  | sockError => exact Or.inl hm
  | reconnectFire =>
      cases hrd : c.reconnectDelay with
      | none =>
          simp only [stepWS, hrd] at hm
          exact Or.inl hm
      | some d =>
          simp only [stepWS, hrd] at hm
          cases hj : c.jobId with
          | none =>
              simp only [connect, hj] at hm
              exact Or.inl hm
          | some jid =>
              simp only [connect, hj] at hm
              exact Or.inl hm
  | pingTick =>
      cases hcon : (c.isConnected && c.socketOpen) with
      | false =>
          simp only [stepWS, hcon, Bool.false_eq_true, if_false] at hm
          exact Or.inl hm
      | true =>
          simp only [stepWS, hcon, if_true] at hm
          rcases List.mem_append.mp hm with h | h
          · exact Or.inl h
          · exact Or.inr (List.mem_singleton.mp h)
  | unmount => exact Or.inl hm

/-- A whole run only ever appends the string ping to the sent trace. -/
theorem runWS_sent (es : List WSEvent) (c : WSClient) (m : String)
    (hm : m ∈ (runWS c es).sent) : m ∈ c.sent ∨ m = "ping" := by
  induction es generalizing c with
  | nil => exact Or.inl hm
  | cons e rest ih =>
      rcases ih (stepWS c e) hm with h | h
      · exact stepWS_sent c e m h
      · exact Or.inr h

/-- Removing a query key makes it unresolvable in the cache. -/
theorem cacheLookup_removeQueries_self {α : Type} (cache : Cache α)
    (k : String × String) : cacheLookup (removeQueries cache k) k = none := by
  induction cache with
  | nil => rfl
  | cons e rest ih =>
      by_cases he : e.1 = k
      · simpa [removeQueries, he] using ih
      · simpa [removeQueries, cacheLookup, he] using ih

/-- Removing a query key leaves every other key resolving as before. -/
theorem cacheLookup_removeQueries_ne {α : Type} (cache : Cache α)
    (k k2 : String × String) (h : k2 ≠ k) :
    cacheLookup (removeQueries cache k) k2 = cacheLookup cache k2 := by
  induction cache with
  | nil => rfl
  | cons e rest ih =>
      by_cases he : e.1 = k
      · simp [removeQueries, cacheLookup, he, Ne.symm h, ih]
      · by_cases he2 : e.1 = k2
        · simp [removeQueries, cacheLookup, he, he2, h]
        · simp [removeQueries, cacheLookup, he, he2, ih]

/-! Claim theorems. -/

/-- C1: the claim says the merge of push events and poll responses keeps
progress non-decreasing and never regresses status, with the higher progress
and the terminal status winning a disagreement. The code instead applies
last write wins: evaluated at a concrete interleaving, a terminal push
update (status completed, progress 100) followed by a stale poll response
(status processing, progress 40) leaves the local job at status processing
and progress 40 — progress regressed from 100 to 40 and the terminal status
lost. -/
theorem C1_last_write_wins_regresses :
    (applyObsList j0 [Obs.push pushDone]).progress = 100 ∧
    (applyObsList j0 [Obs.push pushDone]).status = JobStatus.completed ∧
    (applyObsList j0 [Obs.push pushDone, Obs.poll poll40]).progress = 40 ∧
    (applyObsList j0 [Obs.push pushDone, Obs.poll poll40]).status
      = JobStatus.processing :=
  ⟨rfl, rfl, rfl, rfl⟩

/-- C2 counterexample: the claim says that once a terminal status has been
observed the client schedules no further reconnect attempt. In the code the
onclose handler schedules a reconnect unconditionally: after the hook has
observed the terminal push update and the server closes the connection, a
reconnect is pending with the 2-second delay. -/
theorem C2_reconnect_after_terminal :
    (runWS (connect (initClient (some "J1")))
        [WSEvent.sockOpen, WSEvent.sockMessage (some pushDone),
         WSEvent.sockClose]).lastUpdate = some pushDone ∧
    (runWS (connect (initClient (some "J1")))
        [WSEvent.sockOpen, WSEvent.sockMessage (some pushDone),
         WSEvent.sockClose]).reconnectDelay = some reconnectDelayMs :=
  ⟨rfl, rfl⟩

/-- C2 amended: once a terminal status is observed the client stops polling
(refetchInterval returns false), but the push hook still schedules a
reconnect after every close — including the post-terminal server close —
until the hook is unmounted; the onclose handler does not consult the
observed status. -/
theorem C2_poll_stops_reconnect_does_not (d : JobStatusResponse)
    (hd : isTerminalStatus d.status = true) (c : WSClient) :
    refetchInterval (some d) = none ∧
    (stepWS c WSEvent.sockClose).reconnectDelay = some reconnectDelayMs := by
  refine ⟨?_, rfl⟩
  simp [refetchInterval, hd]

/-- C2 witness: the amended statement evaluated at the concrete completed
snapshot and a concrete hook state. -/
theorem C2_poll_stops_reconnect_does_not_witness :
    isTerminalStatus demoDoneSnap.status = true ∧
    (refetchInterval (some demoDoneSnap) = none ∧
     (stepWS (initClient (some "J1")) WSEvent.sockClose).reconnectDelay
       = some reconnectDelayMs) :=
  ⟨rfl, C2_poll_stops_reconnect_does_not demoDoneSnap rfl (initClient (some "J1"))⟩

/-- C3: once a job is terminal, every further transition call is rejected
with InvalidTransition, so no transition ever changes a terminal row (the
operation returns the error instead of an updated ledger). The Job Ledger is
modelled from the spec because only the frontend is present in the
repository sources. -/
theorem C3_terminal_is_absorbing (L : Ledger) (jid : String) (j : LedgerJob)
    (hget : ledgerGet L jid = Except.ok j)
    (hterm : isTerminalStatus j.status = true)
    (ns : JobStatus) (nstage : Option ProcessingStage) (p : Nat)
    (m : Option String) :
    ledgerTransition L jid ns nstage p m
      = Except.error LedgerError.InvalidTransition := by
  simp [ledgerTransition, hget, transition, hterm]

/-- C3 witness: the statement evaluated on a one-row ledger holding a
completed job. -/
theorem C3_terminal_is_absorbing_witness :
    ledgerGet demoLedger "J1" = Except.ok doneJob ∧
    isTerminalStatus doneJob.status = true ∧
    ledgerTransition demoLedger "J1" JobStatus.processing none 50 none
      = Except.error LedgerError.InvalidTransition :=
  ⟨rfl, rfl,
   C3_terminal_is_absorbing demoLedger "J1" doneJob rfl rfl
     JobStatus.processing none 50 none⟩

/-- C4 counterexample: the claim says the result query returns an object
whose field names are exactly status, result and downloadUrls. The declared
response type instead has an extra job_id field and names the URL map
download_urls, not downloadUrls. -/
theorem C4_result_fields_differ :
    "job_id" ∈ jobResultResponseFields ∧
    "job_id" ∉ specClaimedResultFields ∧
    "download_urls" ∈ jobResultResponseFields ∧
    "downloadUrls" ∉ jobResultResponseFields := by
  decide

/-- C4 amended: the declared result response has exactly the fields job_id,
status, result and download_urls — the claimed fields with downloadUrls
renamed to download_urls and job_id added — where result has exactly the
fields tempo, timeSignature, durationSeconds and accuracyScore, and
download_urls has exactly one URL key per artifact format: musicxml, midi
and pdf. -/
theorem C4_result_shape :
    jobResultResponseFields.Perm
      ("job_id" :: "download_urls" :: specClaimedResultFields.erase "downloadUrls") ∧
    transcriptionResultFields = specClaimedInnerResultFields ∧
    jobResultDownloadUrlKeys = ["musicxml", "midi", "pdf"] := by
  refine ⟨by decide, rfl, rfl⟩

/-- C5 counterexample: the claim says every push message has exactly the
fields status, progress, stage and optionally message. The declared wire
type ProgressUpdate carries a required jobId field as well. -/
theorem C5_push_fields_differ :
    "jobId" ∈ progressUpdateFields ∧ "jobId" ∉ specClaimedPushFields := by
  decide

/-- C5 amended: a push message has exactly the fields jobId, status,
progress and stage, plus the optional message — the claimed fields with a
required jobId added. -/
theorem C5_push_shape :
    progressUpdateFields.Perm ("jobId" :: specClaimedPushFields) := by
  decide

/-- C6: after any event history, a close of the push connection (covering
both a failed connection attempt and an unexpected connected-to-disconnected
transition) leaves exactly one pending reconnect — the timeout ref holds at
most one timeout — with the fixed 2-second backoff; since this holds after
every close in every history, the hook retries indefinitely on every
subsequent failure. -/
theorem C6_reconnect_fixed_backoff (c : WSClient) (es : List WSEvent) :
    (runWS c (es ++ [WSEvent.sockClose])).reconnectDelay = some reconnectDelayMs ∧
    reconnectDelayMs = 2000 := by
  refine ⟨?_, rfl⟩
  rw [runWS_append]
  rfl

/-- C7: while the polled snapshot is absent or non-terminal, refetchInterval
requests the next poll after exactly 1000 milliseconds; the callback reads
only the polled data, so its value is independent of the push connection
state. -/
theorem C7_poll_interval (d : Option JobStatusResponse)
    (h : ∀ x, d = some x → isTerminalStatus x.status = false) :
    refetchInterval d = some pollIntervalMs ∧ pollIntervalMs = 1000 := by
  cases d with
  | none => exact ⟨rfl, rfl⟩
  | some x =>
      refine ⟨?_, rfl⟩
      simp [refetchInterval, h x rfl]

/-- C7 witness: the statement evaluated at a concrete processing
snapshot. -/
theorem C7_poll_interval_witness :
    (∀ x, some poll40 = some x → isTerminalStatus x.status = false) ∧
    (refetchInterval (some poll40) = some pollIntervalMs ∧ pollIntervalMs = 1000) :=
  ⟨fun x hx => by cases hx; rfl,
   C7_poll_interval (some poll40) (fun x hx => by cases hx; rfl)⟩

/-- C8: every payload the hook ever sends over the push connection is the
string ping, and the keepalive interval firing the send is 30000
milliseconds, active only while connected. -/
theorem C8_keepalive_only_ping (j : Option String) (es : List WSEvent)
    (m : String) (hm : m ∈ (runWS (initClient j) es).sent) :
    m = "ping" ∧ pingIntervalMs = 30000 := by
  rcases runWS_sent es (initClient j) m hm with h | h
  · exact absurd h (List.not_mem_nil m)
  · exact ⟨h, rfl⟩

/-- C8 witness: the statement evaluated on a run that actually sends a
keepalive. -/
theorem C8_keepalive_only_ping_witness :
    ("ping" ∈ (runWS (initClient (some "J1"))
        [WSEvent.sockOpen, WSEvent.pingTick]).sent) ∧
    ("ping" = "ping" ∧ pingIntervalMs = 30000) :=
  ⟨by decide,
   C8_keepalive_only_ping (some "J1") [WSEvent.sockOpen, WSEvent.pingTick]
     "ping" (by decide)⟩

/-- C9: a push message whose payload fails to parse as JSON leaves the hook
state — in particular lastUpdate and the delivered-callback trace — exactly
as it was, and the rest of the event history is processed as if the
malformed message had never arrived; the receive loop is not aborted. -/
theorem C9_malformed_message_ignored (c : WSClient) (pre post : List WSEvent) :
    runWS c (pre ++ WSEvent.sockMessage none :: post) = runWS c (pre ++ post) := by
  show (pre ++ WSEvent.sockMessage none :: post).foldl stepWS c
      = (pre ++ post).foldl stepWS c
  rw [List.foldl_append, List.foldl_append, List.foldl_cons]
  rfl

/-- C10: deleting job J removes exactly the cached status entry (key job, J)
and the cached result entry (key job-result, J); for every other job id K
the status and result entries resolve exactly as before the deletion. -/
theorem C10_delete_frame {α : Type} (cache : Cache α) (J K : String)
    (hKJ : K ≠ J) :
    cacheLookup (onDeleteSuccess cache J) ("job", J) = none ∧
    cacheLookup (onDeleteSuccess cache J) ("job-result", J) = none ∧
    cacheLookup (onDeleteSuccess cache J) ("job", K)
      = cacheLookup cache ("job", K) ∧
    cacheLookup (onDeleteSuccess cache J) ("job-result", K)
      = cacheLookup cache ("job-result", K) := by
  unfold onDeleteSuccess
  refine ⟨?_, ?_, ?_, ?_⟩
  · rw [cacheLookup_removeQueries_ne _ _ _ (by simp),
        cacheLookup_removeQueries_self]
  · exact cacheLookup_removeQueries_self _ _
  · rw [cacheLookup_removeQueries_ne _ _ _ (by simp),
        cacheLookup_removeQueries_ne _ _ _ (by simp [hKJ])]
  · rw [cacheLookup_removeQueries_ne _ _ _ (by simp [hKJ]),
        cacheLookup_removeQueries_ne _ _ _ (by simp)]

/-- C10 witness: the statement evaluated on a concrete cache holding
entries for two jobs. -/
theorem C10_delete_frame_witness :
    ("K1" : String) ≠ "J1" ∧
    (cacheLookup (onDeleteSuccess demoCache "J1") ("job", "J1") = none ∧
     cacheLookup (onDeleteSuccess demoCache "J1") ("job-result", "J1") = none ∧
     cacheLookup (onDeleteSuccess demoCache "J1") ("job", "K1")
       = cacheLookup demoCache ("job", "K1") ∧
     cacheLookup (onDeleteSuccess demoCache "J1") ("job-result", "K1")
       = cacheLookup demoCache ("job-result", "K1")) :=
  ⟨by decide, C10_delete_frame demoCache "J1" "K1" (by decide)⟩

end DrumScript
